import Mathlib

/-!
Shallow embedding of the Symbian serial-port engine
(`src/serialportengine_symbian.cpp`) of the qtserialport repository.

The engine talks to the OS through `RComm`/`RCommServ` handles; device
outcomes (error codes returned by the OS calls) are passed in explicitly as
an environment, and each operation is embedded as a pure function from that
environment to the observable outcome (return value, recorded error, which
device calls were made, the resulting working configuration).
-/

namespace QtSerialPort

/-- Portable error codes recorded on the port (`SerialPort::PortError`);
the enum itself is declared in a repository header that is not under
`src/`, its members are taken from the uses in the engine source. -/
inductive PortError where
  | NoSuchDeviceError
  | PermissionDeniedError
  | UnknownPortError
  | UnsupportedPortOperationError
  | IoError
deriving DecidableEq, Repr

/-- Symbian system error codes (`e32err.h`, an OS header outside the
repository). Only distinctness of the codes matters to the engine; the
numeric values are the standard Symbian ones. -/
def KErrNone : Int := 0

def KErrNotFound : Int := -1

def KErrGeneral : Int := -2

def KErrPathNotFound : Int := -12

def KErrCorrupt : Int := -20

def KErrAccessDenied : Int := -21

def KErrLocked : Int := -22

def KErrBadName : Int := -28

def KErrPermissionDenied : Int := -46

/-- Classification of a failed `m_descriptor.Open` result, transcribed from
the `switch (r)` in `SymbianSerialPortEngine::open`. -/
def classifyOpenError (r : Int) : PortError :=
  if r = KErrPermissionDenied then PortError.NoSuchDeviceError
  else if r = KErrLocked then PortError.PermissionDeniedError
  else if r = KErrAccessDenied then PortError.PermissionDeniedError
  else PortError.UnknownPortError

/-- Environment of one `open` call: the outcomes of the successive device
calls (`loadDevices`, `RCommServ::Connect`, `LoadCommModule`,
`RComm::Open`, `RComm::Config`). -/
structure OpenEnv where
  loadDevicesOk : Bool
  serverConnectOk : Bool
  loadModuleOk : Bool
  openResult : Int
  configReadResult : Int
deriving DecidableEq, Repr

/-- Observable outcome of `open`: the returned Bool, the error recorded via
`dptr->setError`, whether `RComm::Open` had succeeded (handle acquired),
and whether `m_descriptor.Close()` was called before returning. -/
structure OpenOutcome where
  success : Bool
  err : Option PortError
  handleAcquired : Bool
  handleReleased : Bool
deriving DecidableEq, Repr

/-- `SymbianSerialPortEngine::open`, transcribed step by step.  Note that in
the source the branch where `m_descriptor.Config(m_restoredSettings)` fails
returns `false` without calling `m_descriptor.Close()`. -/
def openPort (e : OpenEnv) : OpenOutcome :=
  if e.loadDevicesOk = false then
    { success := false, err := some PortError.UnknownPortError,
      handleAcquired := false, handleReleased := false }
  else if e.serverConnectOk = false then
    { success := false, err := some PortError.UnknownPortError,
      handleAcquired := false, handleReleased := false }
  else if e.loadModuleOk = false then
    { success := false, err := some PortError.UnknownPortError,
      handleAcquired := false, handleReleased := false }
  else if e.openResult ≠ KErrNone then
    { success := false, err := some (classifyOpenError e.openResult),
      handleAcquired := false, handleReleased := false }
  else if e.configReadResult ≠ KErrNone then
    { success := false, err := some PortError.UnknownPortError,
      handleAcquired := true, handleReleased := false }
  else
    { success := true, err := none,
      handleAcquired := true, handleReleased := false }

/-- Device calls observable during `close`, in order. -/
inductive CloseEvent where
  | setConfigRestore
  | closeHandle
deriving DecidableEq, Repr

/-- `SymbianSerialPortEngine::close`: if `restoreSettingsOnClose` is set,
`SetConfig(m_restoredSettings)` is issued (its result is discarded by the
source, so the trace does not depend on `restoreResult`); then
`m_descriptor.Close()` is always issued. -/
def closePort (restoreSettingsOnClose : Bool) (restoreResult : Int) : List CloseEvent :=
  (if restoreSettingsOnClose then [CloseEvent.setConfigRestore] else []) ++
    [CloseEvent.closeHandle]

/-- Scenario of one `select` call: the requested timeout and watch set,
whether `RTimer::CreateLocal` succeeds, which of the armed request
statuses have completed at the moment `User::WaitForNRequest` wakes up,
and the values the caller left in the two out-parameters. -/
structure SelectEnv where
  timeout : Int
  checkRead : Bool
  checkWrite : Bool
  timerCreateOk : Bool
  timerFired : Bool
  readFired : Bool
  writeFired : Bool
  initRead : Bool
  initWrite : Bool
deriving DecidableEq, Repr

/-- Observable outcome of `select`: the returned Bool, the final values of
the `selectForRead` / `selectForWrite` out-parameters, and which cancel
calls (`RTimer::Cancel`, `NotifyDataAvailableCancel`,
`NotifyOutputEmptyCancel`) were issued before returning. -/
structure SelectResult where
  returned : Bool
  selectForRead : Bool
  selectForWrite : Bool
  timerCancelled : Bool
  readWatchCancelled : Bool
  writeWatchCancelled : Bool
deriving DecidableEq, Repr

/-- `SymbianSerialPortEngine::select`, transcribed.  A `false` return with
both out-flags cleared is the timed-out outcome.  In the source, the branch
taken when the timer status completed (`timerStatus != KRequestPending`)
clears both out-flags and returns `false` without issuing
`NotifyDataAvailableCancel` / `NotifyOutputEmptyCancel`; the cancel calls
appear only in the other branch. -/
def select (e : SelectEnv) : SelectResult :=
  if e.timeout > 0 ∧ e.timerCreateOk = false then
    { returned := false, selectForRead := e.initRead, selectForWrite := e.initWrite,
      timerCancelled := false, readWatchCancelled := false, writeWatchCancelled := false }
  else if e.timerFired then
    { returned := false, selectForRead := false, selectForWrite := false,
      timerCancelled := false, readWatchCancelled := false, writeWatchCancelled := false }
  else
    { returned := true,
      selectForRead := if e.readFired then true else e.initRead,
      selectForWrite := if e.writeFired then true else e.initWrite,
      timerCancelled := true,
      readWatchCancelled := e.checkRead,
      writeWatchCancelled := e.checkWrite }

/-- Symbian baud-rate tokens (`TBps`, declared in the OS header
`d32comm.h`, outside the repository).  Modelled from the spec: the Rate
Table pairs each numeric rate with an opaque enumerant, unique per entry,
and the not-found sentinel of the two lookup functions is the null token
`0`; so the tokens are modelled as distinct nonzero codes. -/
def EBps50 : Nat := 1

def EBps75 : Nat := 2

def EBps110 : Nat := 3

def EBps134 : Nat := 4

def EBps150 : Nat := 5

def EBps300 : Nat := 6

def EBps600 : Nat := 7

def EBps1200 : Nat := 8

def EBps1800 : Nat := 9

def EBps2000 : Nat := 10

def EBps2400 : Nat := 11

def EBps3600 : Nat := 12

def EBps4800 : Nat := 13

def EBps7200 : Nat := 14

def EBps9600 : Nat := 15

def EBps19200 : Nat := 16

def EBps38400 : Nat := 17

def EBps57600 : Nat := 18

def EBps115200 : Nat := 19

def EBps230400 : Nat := 20

def EBps460800 : Nat := 21

def EBps576000 : Nat := 22

def EBps921600 : Nat := 23

def EBps1152000 : Nat := 24

def EBps4000000 : Nat := 25

/-- The static table `standardRatesTable` of the source: pairs
`(rate, setting)` of a numeric baud rate and its OS token, in source
order. -/
def standardRatesTable : List (Int × Nat) :=
  [(50, EBps50), (75, EBps75), (110, EBps110), (134, EBps134),
   (150, EBps150), (300, EBps300), (600, EBps600), (1200, EBps1200),
   (1800, EBps1800), (2000, EBps2000), (2400, EBps2400), (3600, EBps3600),
   (4800, EBps4800), (7200, EBps7200), (9600, EBps9600), (19200, EBps19200),
   (38400, EBps38400), (57600, EBps57600), (115200, EBps115200),
   (230400, EBps230400), (460800, EBps460800), (576000, EBps576000),
   (921600, EBps921600), (1152000, EBps1152000), (4000000, EBps4000000)]

/-- `qLowerBound` over the rate table as used by `qBinaryFind` in
`settingFromRate`: binary search by the `RatePair::operator<` comparison,
which compares the numeric `rate` component.  Recursion is driven by a
fuel argument (each step shrinks `hi - lo`, so any fuel of at least
`hi - lo` yields the search's value). -/
def lowerBoundFuel (t : List (Int × Nat)) (rate : Int) : Nat → Nat → Nat → Nat
  | 0, lo, _hi => lo
  | Nat.succ fuel, lo, hi =>
    if lo < hi then
      if (t.getD ((lo + hi) / 2) (0, 0)).1 < rate then
        lowerBoundFuel t rate fuel ((lo + hi) / 2 + 1) hi
      else
        lowerBoundFuel t rate fuel lo ((lo + hi) / 2)
    else
      lo

/-- The lower-bound search over the whole interval, with just enough
fuel. -/
def lowerBoundAux (t : List (Int × Nat)) (rate : Int) (lo hi : Nat) : Nat :=
  lowerBoundFuel t rate (hi - lo) lo hi

/-- `SymbianSerialPortEngine::settingFromRate`: `qBinaryFind` over the
table by rate (`qLowerBound`, then the `it == end || value < *it` not-found
test), returning the paired token, or `0` when the rate is absent. -/
def settingFromRate (rate : Int) : Nat :=
  let i := lowerBoundAux standardRatesTable rate 0 standardRatesTable.length
  if i < standardRatesTable.length ∧ ¬ rate < (standardRatesTable.getD i (0, 0)).1 then
    (standardRatesTable.getD i (0, 0)).2
  else 0

/-- `SymbianSerialPortEngine::rateFromSetting`: `qFind` (linear scan) over
the table by the `RatePair::operator==` comparison, which compares the
`setting` component, returning the paired rate, or `0` when the token is
absent. -/
def rateFromSetting (setting : Nat) : Int :=
  match standardRatesTable.find? (fun p => p.2 == setting) with
  | some p => p.1
  | none => 0

/-- `SymbianSerialPortEngine::standardRates`: the numeric rates of the
table, in table order. -/
def standardRates : List Int := standardRatesTable.map (fun p => p.1)

/-- Portable data-bits values (`SerialPort::DataBits`, declared in a
repository header not under `src/`); modelled from the spec:
`dataBits ∈ {5,6,7,8} or Unknown`. -/
inductive DataBits where
  | Data5
  | Data6
  | Data7
  | Data8
  | UnknownDataBits
deriving DecidableEq, Repr

/-- Portable parity values (`SerialPort::Parity`); modelled from the spec:
`parity ∈ {None, Even, Odd, Mark, Space} or Unknown`. -/
inductive Parity where
  | NoParity
  | EvenParity
  | OddParity
  | MarkParity
  | SpaceParity
  | UnknownParity
deriving DecidableEq, Repr

/-- Portable stop-bits values (`SerialPort::StopBits`); modelled from the
spec: `stopBits ∈ {One, Two} or Unknown`. -/
inductive StopBits where
  | OneStop
  | TwoStop
  | UnknownStopBits
deriving DecidableEq, Repr

/-- Portable flow-control values (`SerialPort::FlowControl`); modelled from
the spec: `flowControl ∈ {None, Hardware, Software} or Unknown`. -/
inductive FlowControl where
  | NoFlowControl
  | HardwareControl
  | SoftwareControl
  | UnknownFlowControl
deriving DecidableEq, Repr

/-- Rate directions (`SerialPort::Directions`); modelled from the spec: a
rate request names the input direction, the output direction, or both
directions at once. -/
inductive Directions where
  | InputDir
  | OutputDir
  | AllDirections
deriving DecidableEq, Repr

/-- Native data-bits codes (`TDataBits` of `d32comm.h`, an OS header
outside the repository); modelled from the spec as distinct codes of the
underlying C enum, whose carrier admits values beyond the named ones. -/
def EData5 : Nat := 0

def EData6 : Nat := 1

def EData7 : Nat := 2

def EData8 : Nat := 3

/-- Native parity codes (`TParity` of `d32comm.h`); modelled from the spec
as distinct codes. -/
def EParityNone : Nat := 0

def EParityEven : Nat := 1

def EParityOdd : Nat := 2

def EParityMark : Nat := 3

def EParitySpace : Nat := 4

/-- Native stop-bits codes (`TStopBits` of `d32comm.h`); modelled from the
spec as distinct codes. -/
def EStop1 : Nat := 0

def EStop2 : Nat := 1

/-- Native handshake bit flags (`KConfig...` of `d32comm.h`); modelled
from the spec as independent single-bit flags: the software-flow bit pair,
the hardware-flow bit pair, and the fail-on-DSR marker. -/
def KConfigObeyXoff : Nat := 1

def KConfigSendXoff : Nat := 2

def KConfigObeyCTS : Nat := 4

def KConfigFreeRTS : Nat := 8

def KConfigFailDSR : Nat := 32

/-- The fields of the native configuration record (`TCommConfigV01`) that
the engine reads or writes: baud-rate token, data-bits code, parity code,
stop-bits code, handshake bit mask. -/
structure TCommConfigV01 where
  iRate : Nat
  iDataBits : Nat
  iParity : Nat
  iStopBits : Nat
  iHandshake : Nat
deriving DecidableEq, Repr

/-- Observable outcome of one configuration setter: the returned Bool, the
working native configuration after the call, whether
`m_descriptor.SetConfig` was invoked (`updateCommConfig` ran), and the
error recorded via `dptr->setError`. -/
structure ApplyResult where
  ok : Bool
  cfg : TCommConfigV01
  pushed : Bool
  err : Option PortError
deriving DecidableEq, Repr

/-- `SymbianSerialPortEngine::updateCommConfig`: pushes the working
configuration to the device; `deviceOk` is the outcome of the device's
`SetConfig` call. -/
def updateCommConfig (deviceOk : Bool) (cfg : TCommConfigV01) : ApplyResult :=
  if deviceOk then
    { ok := true, cfg := cfg, pushed := true, err := none }
  else
    { ok := false, cfg := cfg, pushed := true,
      err := some PortError.UnsupportedPortOperationError }

/-- `SymbianSerialPortEngine::setRate`: rejects any direction other than
`AllDirections`, then looks the rate up via `settingFromRate` and rejects
the null token; otherwise stores the token and pushes the
configuration. -/
def setRate (deviceOk : Bool) (cfg : TCommConfigV01) (rate : Int) (dir : Directions) :
    ApplyResult :=
  if dir ≠ Directions.AllDirections then
    { ok := false, cfg := cfg, pushed := false,
      err := some PortError.UnsupportedPortOperationError }
  else if settingFromRate rate ≠ 0 then
    updateCommConfig deviceOk { cfg with iRate := settingFromRate rate }
  else
    { ok := false, cfg := cfg, pushed := false,
      err := some PortError.UnsupportedPortOperationError }

/-- `SymbianSerialPortEngine::setDataBits`, transcribed from its
`switch`. -/
def setDataBits (deviceOk : Bool) (cfg : TCommConfigV01) (dataBits : DataBits) :
    ApplyResult :=
  match dataBits with
  | DataBits.Data5 => updateCommConfig deviceOk { cfg with iDataBits := EData5 }
  | DataBits.Data6 => updateCommConfig deviceOk { cfg with iDataBits := EData6 }
  | DataBits.Data7 => updateCommConfig deviceOk { cfg with iDataBits := EData7 }
  | DataBits.Data8 => updateCommConfig deviceOk { cfg with iDataBits := EData8 }
  | DataBits.UnknownDataBits =>
    { ok := false, cfg := cfg, pushed := false,
      err := some PortError.UnsupportedPortOperationError }

/-- `SymbianSerialPortEngine::setParity`, transcribed from its `switch`. -/
def setParity (deviceOk : Bool) (cfg : TCommConfigV01) (parity : Parity) :
    ApplyResult :=
  match parity with
  | Parity.NoParity => updateCommConfig deviceOk { cfg with iParity := EParityNone }
  | Parity.EvenParity => updateCommConfig deviceOk { cfg with iParity := EParityEven }
  | Parity.OddParity => updateCommConfig deviceOk { cfg with iParity := EParityOdd }
  | Parity.MarkParity => updateCommConfig deviceOk { cfg with iParity := EParityMark }
  | Parity.SpaceParity => updateCommConfig deviceOk { cfg with iParity := EParitySpace }
  | Parity.UnknownParity =>
    { ok := false, cfg := cfg, pushed := false,
      err := some PortError.UnsupportedPortOperationError }

/-- `SymbianSerialPortEngine::setStopBits`, transcribed from its
`switch`. -/
def setStopBits (deviceOk : Bool) (cfg : TCommConfigV01) (stopBits : StopBits) :
    ApplyResult :=
  match stopBits with
  | StopBits.OneStop => updateCommConfig deviceOk { cfg with iStopBits := EStop1 }
  | StopBits.TwoStop => updateCommConfig deviceOk { cfg with iStopBits := EStop2 }
  | StopBits.UnknownStopBits =>
    { ok := false, cfg := cfg, pushed := false,
      err := some PortError.UnsupportedPortOperationError }

/-- `SymbianSerialPortEngine::setFlowControl`, transcribed from its
`switch`. -/
def setFlowControl (deviceOk : Bool) (cfg : TCommConfigV01) (flow : FlowControl) :
    ApplyResult :=
  match flow with
  | FlowControl.NoFlowControl =>
    updateCommConfig deviceOk { cfg with iHandshake := KConfigFailDSR }
  | FlowControl.HardwareControl =>
    updateCommConfig deviceOk { cfg with iHandshake := KConfigObeyCTS ||| KConfigFreeRTS }
  | FlowControl.SoftwareControl =>
    updateCommConfig deviceOk { cfg with iHandshake := KConfigObeyXoff ||| KConfigSendXoff }
  | FlowControl.UnknownFlowControl =>
    { ok := false, cfg := cfg, pushed := false,
      err := some PortError.UnsupportedPortOperationError }

/-- The portable configuration detected from native settings (the
`dptr->options` fields that `detectDefaultSettings` writes). -/
structure PortConfig where
  inputRate : Int
  outputRate : Int
  dataBits : DataBits
  parity : Parity
  stopBits : StopBits
  flow : FlowControl
deriving DecidableEq, Repr

/-- `SymbianSerialPortEngine::detectDefaultSettings`: detects the portable
configuration from the native settings; every `switch` has a `default`
arm yielding the Unknown tag, and the flow-control detection tests the
software pair, then the hardware pair, then the fail-on-DSR bit, in that
order. -/
def detectDefaultSettings (cfg : TCommConfigV01) : PortConfig :=
  { inputRate := rateFromSetting cfg.iRate
    outputRate := rateFromSetting cfg.iRate
    dataBits :=
      if cfg.iDataBits = EData5 then DataBits.Data5
      else if cfg.iDataBits = EData6 then DataBits.Data6
      else if cfg.iDataBits = EData7 then DataBits.Data7
      else if cfg.iDataBits = EData8 then DataBits.Data8
      else DataBits.UnknownDataBits
    parity :=
      if cfg.iParity = EParityNone then Parity.NoParity
      else if cfg.iParity = EParityEven then Parity.EvenParity
      else if cfg.iParity = EParityOdd then Parity.OddParity
      else if cfg.iParity = EParityMark then Parity.MarkParity
      else if cfg.iParity = EParitySpace then Parity.SpaceParity
      else Parity.UnknownParity
    stopBits :=
      if cfg.iStopBits = EStop1 then StopBits.OneStop
      else if cfg.iStopBits = EStop2 then StopBits.TwoStop
      else StopBits.UnknownStopBits
    flow :=
      if cfg.iHandshake &&& (KConfigObeyXoff ||| KConfigSendXoff) =
          KConfigObeyXoff ||| KConfigSendXoff then FlowControl.SoftwareControl
      else if cfg.iHandshake &&& (KConfigObeyCTS ||| KConfigFreeRTS) =
          KConfigObeyCTS ||| KConfigFreeRTS then FlowControl.HardwareControl
      else if cfg.iHandshake &&& KConfigFailDSR ≠ 0 then FlowControl.NoFlowControl
      else FlowControl.UnknownFlowControl }

/-- Translation of a whole portable configuration to native settings: the
five setters applied in sequence to the working configuration (pure part;
the device push is taken as accepting), `none` when a setter rejects its
value. -/
def toNative (cfg : TCommConfigV01) (p : PortConfig) : Option TCommConfigV01 :=
  let r1 := setRate true cfg p.inputRate Directions.AllDirections
  if r1.ok = false then none else
  let r2 := setDataBits true r1.cfg p.dataBits
  if r2.ok = false then none else
  let r3 := setParity true r2.cfg p.parity
  if r3.ok = false then none else
  let r4 := setStopBits true r3.cfg p.stopBits
  if r4.ok = false then none else
  let r5 := setFlowControl true r4.cfg p.flow
  if r5.ok = false then none else
  some r5.cfg

/-- Validity of a portable configuration as input to the setters: the
rates agree across directions and appear in the rate table, and no field
carries an Unknown tag. -/
def validEnumerants (p : PortConfig) : Prop :=
  p.inputRate = p.outputRate ∧ p.inputRate ∈ standardRates ∧
  p.dataBits ≠ DataBits.UnknownDataBits ∧ p.parity ≠ Parity.UnknownParity ∧
  p.stopBits ≠ StopBits.UnknownStopBits ∧ p.flow ≠ FlowControl.UnknownFlowControl

instance (p : PortConfig) : Decidable (validEnumerants p) := by
  unfold validEnumerants
  infer_instance

/-- The spec's permission-class of open failures (access or lock denied),
as Symbian error codes; a second definition following the spec's words,
for comparison with the classification the source performs. -/
def specPermissionClass (r : Int) : Prop :=
  r = KErrPermissionDenied ∨ r = KErrAccessDenied ∨ r = KErrLocked

/-- The spec's not-present-class of open failures (the location does not
resolve to a device), as Symbian error codes; a second definition
following the spec's words, for comparison with the classification the
source performs. -/
def specNotPresentClass (r : Int) : Prop :=
  r = KErrNotFound ∨ r = KErrPathNotFound ∨ r = KErrBadName

/-- The native data-bits code each `setDataBits` arm stores (an
out-of-range code for the Unknown tag, which `setDataBits` rejects). -/
def dataBitsCode : DataBits → Nat
  | DataBits.Data5 => EData5
  | DataBits.Data6 => EData6
  | DataBits.Data7 => EData7
  | DataBits.Data8 => EData8
  | DataBits.UnknownDataBits => 1000

/-- The native parity code each `setParity` arm stores. -/
def parityCode : Parity → Nat
  | Parity.NoParity => EParityNone
  | Parity.EvenParity => EParityEven
  | Parity.OddParity => EParityOdd
  | Parity.MarkParity => EParityMark
  | Parity.SpaceParity => EParitySpace
  | Parity.UnknownParity => 1000

/-- The native stop-bits code each `setStopBits` arm stores. -/
def stopBitsCode : StopBits → Nat
  | StopBits.OneStop => EStop1
  | StopBits.TwoStop => EStop2
  | StopBits.UnknownStopBits => 1000

/-- The handshake mask each `setFlowControl` arm stores. -/
def handshakeCode : FlowControl → Nat
  | FlowControl.NoFlowControl => KConfigFailDSR
  | FlowControl.HardwareControl => KConfigObeyCTS ||| KConfigFreeRTS
  | FlowControl.SoftwareControl => KConfigObeyXoff ||| KConfigSendXoff
  | FlowControl.UnknownFlowControl => 0

/-- The search interval only shrinks: the lower-bound search stays inside
`[lo, hi]`. -/
theorem lowerBoundFuel_mem (t : List (Int × Nat)) (rate : Int) :
    ∀ (fuel lo hi : Nat), lo ≤ hi →
      lo ≤ lowerBoundFuel t rate fuel lo hi ∧ lowerBoundFuel t rate fuel lo hi ≤ hi := by
  intro fuel
  induction fuel with
  | zero => intro lo hi h; simpa [lowerBoundFuel] using h
  | succ fuel ih =>
    intro lo hi h
    by_cases hlh : lo < hi
    · by_cases hcmp : (t.getD ((lo + hi) / 2) (0, 0)).1 < rate
      · have h2 := ih ((lo + hi) / 2 + 1) hi (by omega)
        simp only [lowerBoundFuel, if_pos hlh, if_pos hcmp]
        omega
      · have h2 := ih lo ((lo + hi) / 2) (by omega)
        simp only [lowerBoundFuel, if_pos hlh, if_neg hcmp]
        omega
    · simp only [lowerBoundFuel, if_neg hlh]
      omega

/-- Postcondition of the lower-bound search: with enough fuel, when the
result lies strictly below `hi`, the entry there is not below the sought
rate. -/
theorem lowerBoundFuel_not_lt (t : List (Int × Nat)) (rate : Int) :
    ∀ (fuel lo hi : Nat), hi - lo ≤ fuel →
      lowerBoundFuel t rate fuel lo hi < hi →
      ¬ (t.getD (lowerBoundFuel t rate fuel lo hi) (0, 0)).1 < rate := by
  intro fuel
  induction fuel with
  | zero =>
    intro lo hi hfuel hlt
    simp only [lowerBoundFuel] at hlt
    omega
  | succ fuel ih =>
    intro lo hi hfuel hlt
    by_cases hlh : lo < hi
    · by_cases hcmp : (t.getD ((lo + hi) / 2) (0, 0)).1 < rate
      · simp only [lowerBoundFuel, if_pos hlh, if_pos hcmp] at hlt ⊢
        exact ih ((lo + hi) / 2 + 1) hi (by omega) hlt
      · simp only [lowerBoundFuel, if_pos hlh, if_neg hcmp] at hlt ⊢
        have hbounds := lowerBoundFuel_mem t rate fuel lo ((lo + hi) / 2) (by omega)
        rcases Nat.lt_or_ge (lowerBoundFuel t rate fuel lo ((lo + hi) / 2)) ((lo + hi) / 2)
          with hcase | hcase
        · exact ih lo ((lo + hi) / 2) (by omega) hcase
        · have : lowerBoundFuel t rate fuel lo ((lo + hi) / 2) = (lo + hi) / 2 := by omega
          rw [this]
          exact hcmp
    · simp only [lowerBoundFuel, if_neg hlh] at hlt
      omega

/-- A nonzero result of `settingFromRate` certifies a table entry: the
sought rate paired with the returned token is in the table. -/
theorem settingFromRate_mem (rate : Int) (h : settingFromRate rate ≠ 0) :
    (rate, settingFromRate rate) ∈ standardRatesTable := by
  unfold settingFromRate at h ⊢
  by_cases hc : lowerBoundAux standardRatesTable rate 0 standardRatesTable.length <
        standardRatesTable.length ∧
      ¬ rate < (standardRatesTable.getD
        (lowerBoundAux standardRatesTable rate 0 standardRatesTable.length) (0, 0)).1
  · rw [if_pos hc] at h ⊢
    obtain ⟨h1, h2⟩ := hc
    have h3 : ¬ (standardRatesTable.getD
        (lowerBoundAux standardRatesTable rate 0 standardRatesTable.length) (0, 0)).1 < rate := by
      have := lowerBoundFuel_not_lt standardRatesTable rate
        (standardRatesTable.length - 0) 0 standardRatesTable.length (by omega)
      exact this h1
    have heq : (standardRatesTable.getD
        (lowerBoundAux standardRatesTable rate 0 standardRatesTable.length) (0, 0)).1 = rate := by
      omega
    revert h1 h2 h3 heq
    generalize lowerBoundAux standardRatesTable rate 0 standardRatesTable.length = i
    intro h1 h2 h3 heq
    have hlen : standardRatesTable.length = 25 := rfl
    rw [hlen] at h1
    interval_cases i <;> simp_all [standardRatesTable]
  · rw [if_neg hc] at h
    exact absurd rfl h

/-- A rate absent from the table yields the null token. -/
theorem settingFromRate_eq_zero (rate : Int) (h : rate ∉ standardRates) :
    settingFromRate rate = 0 := by
  by_cases h0 : settingFromRate rate = 0
  · exact h0
  · exfalso
    apply h
    have hmem := settingFromRate_mem rate h0
    exact List.mem_map.mpr ⟨(rate, settingFromRate rate), hmem, rfl⟩

/-- Evaluation of `settingFromRate` at every rate of the table. -/
theorem settingFromRate_eq : ∀ q ∈ standardRatesTable, settingFromRate q.1 = q.2 := by
  decide

/-- Evaluation of `rateFromSetting` at every token of the table. -/
theorem rateFromSetting_eq : ∀ q ∈ standardRatesTable, rateFromSetting q.2 = q.1 := by
  decide

/-- Every token of the table differs from the null token. -/
theorem table_tokens_nonzero : ∀ q ∈ standardRatesTable, q.2 ≠ 0 := by
  decide

/-- C1 counterexample: the claim's classification fails on the code.  The
permission-class code `KErrPermissionDenied` is recorded by `open` as
`NoSuchDeviceError` (not `PermissionDeniedError`), and the
not-present-class code `KErrNotFound` is recorded as `UnknownPortError`
(not `NoSuchDeviceError`). -/
theorem C1_counterexample :
    specPermissionClass KErrPermissionDenied ∧
    (openPort { loadDevicesOk := true, serverConnectOk := true, loadModuleOk := true,
                openResult := KErrPermissionDenied, configReadResult := KErrNone }).err =
      some PortError.NoSuchDeviceError ∧
    specNotPresentClass KErrNotFound ∧
    (openPort { loadDevicesOk := true, serverConnectOk := true, loadModuleOk := true,
                openResult := KErrNotFound, configReadResult := KErrNone }).err =
      some PortError.UnknownPortError := by
  refine ⟨Or.inl rfl, by decide, Or.inl rfl, by decide⟩

/-- C1 (amended): when the exclusive-mode device open fails,
`KErrPermissionDenied` is recorded as `NoSuchDeviceError`, `KErrLocked`
and `KErrAccessDenied` are recorded as `PermissionDeniedError`, any other
error is recorded as `UnknownPortError`, and `open` returns `false`. -/
theorem C1_amended_classification (e : OpenEnv)
    (h1 : e.loadDevicesOk = true) (h2 : e.serverConnectOk = true)
    (h3 : e.loadModuleOk = true) (h4 : e.openResult ≠ KErrNone) :
    (openPort e).success = false ∧
    (openPort e).err =
      some (if e.openResult = KErrPermissionDenied then PortError.NoSuchDeviceError
            else if e.openResult = KErrLocked ∨ e.openResult = KErrAccessDenied then
              PortError.PermissionDeniedError
            else PortError.UnknownPortError) := by
  simp only [openPort, h1, h2, h3, h4, classifyOpenError]
  norm_num
  split_ifs <;> simp_all

/-- C1 witness: the amended classification evaluated at a locked device. -/
theorem C1_amended_classification_witness :
    (openPort { loadDevicesOk := true, serverConnectOk := true, loadModuleOk := true,
                openResult := KErrLocked, configReadResult := KErrNone }).success = false ∧
    (openPort { loadDevicesOk := true, serverConnectOk := true, loadModuleOk := true,
                openResult := KErrLocked, configReadResult := KErrNone }).err =
      some PortError.PermissionDeniedError := by
  have h := C1_amended_classification
    { loadDevicesOk := true, serverConnectOk := true, loadModuleOk := true,
      openResult := KErrLocked, configReadResult := KErrNone } rfl rfl rfl (by decide)
  refine ⟨h.1, ?_⟩
  rw [h.2]
  decide

/-- C2: the code, evaluated at the failing input.  When `RComm::Open`
succeeds and the subsequent read-back `m_descriptor.Config` fails, `open`
returns `false` with `UnknownPortError` but never calls
`m_descriptor.Close()`: the exclusive handle is left held, against the
claim that every post-acquisition failure releases the handle. -/
theorem C2_code_divergence :
    (openPort { loadDevicesOk := true, serverConnectOk := true, loadModuleOk := true,
                openResult := KErrNone, configReadResult := KErrGeneral }).success = false ∧
    (openPort { loadDevicesOk := true, serverConnectOk := true, loadModuleOk := true,
                openResult := KErrNone, configReadResult := KErrGeneral }).err =
      some PortError.UnknownPortError ∧
    (openPort { loadDevicesOk := true, serverConnectOk := true, loadModuleOk := true,
                openResult := KErrNone, configReadResult := KErrGeneral }).handleAcquired = true ∧
    (openPort { loadDevicesOk := true, serverConnectOk := true, loadModuleOk := true,
                openResult := KErrNone, configReadResult := KErrGeneral }).handleReleased = false := by
  decide

/-- C3: the code, evaluated at the failing input.  When the timer source
completes first and no read/write source has completed, `select` does
return the timed-out outcome with both readiness flags false — but it
returns without cancelling the still-pending read watch (the cancel calls
are only on the non-timeout path), against the claim that every
still-pending watch is cancelled before returning. -/
theorem C3_code_divergence :
    (select { timeout := 100, checkRead := true, checkWrite := false, timerCreateOk := true,
              timerFired := true, readFired := false, writeFired := false,
              initRead := false, initWrite := false }).returned = false ∧
    (select { timeout := 100, checkRead := true, checkWrite := false, timerCreateOk := true,
              timerFired := true, readFired := false, writeFired := false,
              initRead := false, initWrite := false }).selectForRead = false ∧
    (select { timeout := 100, checkRead := true, checkWrite := false, timerCreateOk := true,
              timerFired := true, readFired := false, writeFired := false,
              initRead := false, initWrite := false }).selectForWrite = false ∧
    (select { timeout := 100, checkRead := true, checkWrite := false, timerCreateOk := true,
              timerFired := true, readFired := false, writeFired := false,
              initRead := false, initWrite := false }).readWatchCancelled = false := by
  decide

/-- C5: both lookup directions round-trip over the rate table: for every
numeric rate of the table, `settingFromRate` then `rateFromSetting`
recovers it, and for every native token of the table, `rateFromSetting`
then `settingFromRate` recovers it. -/
theorem C5_rate_table_roundtrip :
    ∀ p ∈ standardRatesTable,
      rateFromSetting (settingFromRate p.1) = p.1 ∧
      settingFromRate (rateFromSetting p.2) = p.2 := by
  decide

/-- C5 witness: the round trips at the 9600-baud table entry. -/
theorem C5_rate_table_roundtrip_witness :
    rateFromSetting (settingFromRate 9600) = 9600 ∧
    settingFromRate (rateFromSetting EBps9600) = EBps9600 :=
  C5_rate_table_roundtrip (9600, EBps9600) (by decide)

/-- C8: `close` always issues the handle release, as its last device call;
when restore-on-close is requested the restore write is attempted first;
and the restore write's result has no effect on the trace, so a failed
restore neither prevents the release nor the completion of `close`. -/
theorem C8_close_best_effort (restoreSettingsOnClose : Bool) (restoreResult : Int) :
    CloseEvent.closeHandle ∈ closePort restoreSettingsOnClose restoreResult ∧
    (closePort restoreSettingsOnClose restoreResult).getLast? = some CloseEvent.closeHandle ∧
    (restoreSettingsOnClose = true →
      closePort restoreSettingsOnClose restoreResult =
        [CloseEvent.setConfigRestore, CloseEvent.closeHandle]) ∧
    (restoreSettingsOnClose = false →
      closePort restoreSettingsOnClose restoreResult = [CloseEvent.closeHandle]) ∧
    (∀ otherResult : Int,
      closePort restoreSettingsOnClose restoreResult =
        closePort restoreSettingsOnClose otherResult) := by
  cases restoreSettingsOnClose <;> simp [closePort]

/-- C8 witness: `close` with restore requested and the restore write
failing (`KErrGeneral`) still restores first and releases the handle. -/
theorem C8_close_best_effort_witness :
    CloseEvent.closeHandle ∈ closePort true KErrGeneral ∧
    closePort true KErrGeneral = [CloseEvent.setConfigRestore, CloseEvent.closeHandle] :=
  ⟨(C8_close_best_effort true KErrGeneral).1,
   (C8_close_best_effort true KErrGeneral).2.2.1 rfl⟩

/-- C9: the sequence of supported numeric rates is strictly ascending and
has no duplicates (the sortedness invariant the binary search of
`settingFromRate` relies on). -/
theorem C9_rates_sorted :
    List.Pairwise (fun a b => a < b) standardRates ∧ standardRates.Nodup := by
  constructor
  · decide
  · decide


/-- `setRate` at a table entry, with both directions requested: stores the
entry's token and pushes. -/
theorem setRate_table (deviceOk : Bool) (cfg : TCommConfigV01) (q : Int × Nat)
    (hq : q ∈ standardRatesTable) :
    setRate deviceOk cfg q.1 Directions.AllDirections =
      updateCommConfig deviceOk { cfg with iRate := q.2 } := by
  have h1 := settingFromRate_eq q hq
  have h2 := table_tokens_nonzero q hq
  simp [setRate, h1, h2]

/-- `setDataBits` at a non-Unknown value: stores the value's code and
pushes. -/
theorem setDataBits_valid (deviceOk : Bool) (cfg : TCommConfigV01) (dataBits : DataBits)
    (h : dataBits ≠ DataBits.UnknownDataBits) :
    setDataBits deviceOk cfg dataBits =
      updateCommConfig deviceOk { cfg with iDataBits := dataBitsCode dataBits } := by
  cases dataBits
  · rfl
  · rfl
  · rfl
  · rfl
  · exact absurd rfl h

/-- `setParity` at a non-Unknown value: stores the value's code and
pushes. -/
theorem setParity_valid (deviceOk : Bool) (cfg : TCommConfigV01) (parity : Parity)
    (h : parity ≠ Parity.UnknownParity) :
    setParity deviceOk cfg parity =
      updateCommConfig deviceOk { cfg with iParity := parityCode parity } := by
  cases parity
  · rfl
  · rfl
  · rfl
  · rfl
  · rfl
  · exact absurd rfl h

/-- `setStopBits` at a non-Unknown value: stores the value's code and
pushes. -/
theorem setStopBits_valid (deviceOk : Bool) (cfg : TCommConfigV01) (stopBits : StopBits)
    (h : stopBits ≠ StopBits.UnknownStopBits) :
    setStopBits deviceOk cfg stopBits =
      updateCommConfig deviceOk { cfg with iStopBits := stopBitsCode stopBits } := by
  cases stopBits
  · rfl
  · rfl
  · exact absurd rfl h

/-- `setFlowControl` at a non-Unknown value: stores the value's handshake
mask and pushes. -/
theorem setFlowControl_valid (deviceOk : Bool) (cfg : TCommConfigV01) (flow : FlowControl)
    (h : flow ≠ FlowControl.UnknownFlowControl) :
    setFlowControl deviceOk cfg flow =
      updateCommConfig deviceOk { cfg with iHandshake := handshakeCode flow } := by
  cases flow
  · rfl
  · rfl
  · rfl
  · exact absurd rfl h

/-- Detection applied to a configuration built from the setters' codes
recovers each portable field (the Unknown tags, whose codes are never
stored by a successful setter, also detect as themselves via their
out-of-range codes). -/
theorem detect_codes (r : Nat) (dataBits : DataBits) (parity : Parity)
    (stopBits : StopBits) (flow : FlowControl) :
    detectDefaultSettings
      { iRate := r, iDataBits := dataBitsCode dataBits, iParity := parityCode parity,
        iStopBits := stopBitsCode stopBits, iHandshake := handshakeCode flow } =
      { inputRate := rateFromSetting r, outputRate := rateFromSetting r,
        dataBits := dataBits, parity := parity, stopBits := stopBits, flow := flow } := by
  have e : detectDefaultSettings
      { iRate := r, iDataBits := dataBitsCode dataBits, iParity := parityCode parity,
        iStopBits := stopBitsCode stopBits, iHandshake := handshakeCode flow } =
      { inputRate := rateFromSetting r, outputRate := rateFromSetting r,
        dataBits :=
          if dataBitsCode dataBits = EData5 then DataBits.Data5
          else if dataBitsCode dataBits = EData6 then DataBits.Data6
          else if dataBitsCode dataBits = EData7 then DataBits.Data7
          else if dataBitsCode dataBits = EData8 then DataBits.Data8
          else DataBits.UnknownDataBits,
        parity :=
          if parityCode parity = EParityNone then Parity.NoParity
          else if parityCode parity = EParityEven then Parity.EvenParity
          else if parityCode parity = EParityOdd then Parity.OddParity
          else if parityCode parity = EParityMark then Parity.MarkParity
          else if parityCode parity = EParitySpace then Parity.SpaceParity
          else Parity.UnknownParity,
        stopBits :=
          if stopBitsCode stopBits = EStop1 then StopBits.OneStop
          else if stopBitsCode stopBits = EStop2 then StopBits.TwoStop
          else StopBits.UnknownStopBits,
        flow :=
          if handshakeCode flow &&& (KConfigObeyXoff ||| KConfigSendXoff) =
              KConfigObeyXoff ||| KConfigSendXoff then FlowControl.SoftwareControl
          else if handshakeCode flow &&& (KConfigObeyCTS ||| KConfigFreeRTS) =
              KConfigObeyCTS ||| KConfigFreeRTS then FlowControl.HardwareControl
          else if handshakeCode flow &&& KConfigFailDSR ≠ 0 then FlowControl.NoFlowControl
          else FlowControl.UnknownFlowControl } := rfl
  rw [e]
  simp only [PortConfig.mk.injEq]
  refine ⟨trivial, trivial, ?_, ?_, ?_, ?_⟩
  · cases dataBits <;> decide
  · cases parity <;> decide
  · cases stopBits <;> decide
  · cases flow <;> decide

/-- C4: for every portable configuration whose fields are all valid
enumerants, translating to native settings and detecting the portable
configuration back reproduces it exactly (in particular no field comes
back as an Unknown tag), from any starting working configuration. -/
theorem C4_roundtrip (cfg : TCommConfigV01) (p : PortConfig) (h : validEnumerants p) :
    ∃ n, toNative cfg p = some n ∧ detectDefaultSettings n = p := by
  obtain ⟨ir, orate, dataBits, parity, stopBits, flow⟩ := p
  obtain ⟨hio, hrate, hdb, hpar, hsb, hfl⟩ := h
  simp only at hio hrate hdb hpar hsb hfl
  subst hio
  have hrate2 : ir ∈ standardRatesTable.map (fun x => x.1) := hrate
  obtain ⟨q, hq, hq1⟩ := List.mem_map.mp hrate2
  refine ⟨⟨q.2, dataBitsCode dataBits, parityCode parity, stopBitsCode stopBits,
    handshakeCode flow⟩, ?_, ?_⟩
  · have e1 : setRate true cfg ir Directions.AllDirections =
        updateCommConfig true { cfg with iRate := q.2 } := by
      rw [← hq1]
      exact setRate_table true cfg q hq
    have e2 : ∀ c : TCommConfigV01, setDataBits true c dataBits =
        updateCommConfig true { c with iDataBits := dataBitsCode dataBits } :=
      fun c => setDataBits_valid true c dataBits hdb
    have e3 : ∀ c : TCommConfigV01, setParity true c parity =
        updateCommConfig true { c with iParity := parityCode parity } :=
      fun c => setParity_valid true c parity hpar
    have e4 : ∀ c : TCommConfigV01, setStopBits true c stopBits =
        updateCommConfig true { c with iStopBits := stopBitsCode stopBits } :=
      fun c => setStopBits_valid true c stopBits hsb
    have e5 : ∀ c : TCommConfigV01, setFlowControl true c flow =
        updateCommConfig true { c with iHandshake := handshakeCode flow } :=
      fun c => setFlowControl_valid true c flow hfl
    simp only [toNative, e1, e2, e3, e4, e5, updateCommConfig]
    simp
  · have hr : rateFromSetting q.2 = ir := hq1 ▸ rateFromSetting_eq q hq
    rw [detect_codes q.2 dataBits parity stopBits flow, hr]

/-- C4 witness: the round trip at a concrete valid configuration. -/
theorem C4_roundtrip_witness :
    ∃ n, toNative ⟨0, 0, 0, 0, 0⟩
      ⟨19200, 19200, DataBits.Data7, Parity.EvenParity, StopBits.TwoStop,
        FlowControl.SoftwareControl⟩ = some n ∧
      detectDefaultSettings n =
        ⟨19200, 19200, DataBits.Data7, Parity.EvenParity, StopBits.TwoStop,
          FlowControl.SoftwareControl⟩ :=
  C4_roundtrip ⟨0, 0, 0, 0, 0⟩
    ⟨19200, 19200, DataBits.Data7, Parity.EvenParity, StopBits.TwoStop,
      FlowControl.SoftwareControl⟩ (by decide)

/-- C6: every configuration-apply operation rejects every invalid input
with `UnsupportedPortOperationError` and returns `false`: `setRate` for a
direction other than both directions at once or for a rate absent from
the table, and `setDataBits` / `setParity` / `setStopBits` /
`setFlowControl` for the value outside their enumerated kinds. -/
theorem C6_invalid_rejected (deviceOk : Bool) (cfg : TCommConfigV01) :
    (∀ (rate : Int) (dir : Directions), dir ≠ Directions.AllDirections →
      (setRate deviceOk cfg rate dir).ok = false ∧
      (setRate deviceOk cfg rate dir).err = some PortError.UnsupportedPortOperationError) ∧
    (∀ rate : Int, rate ∉ standardRates →
      (setRate deviceOk cfg rate Directions.AllDirections).ok = false ∧
      (setRate deviceOk cfg rate Directions.AllDirections).err =
        some PortError.UnsupportedPortOperationError) ∧
    ((setDataBits deviceOk cfg DataBits.UnknownDataBits).ok = false ∧
      (setDataBits deviceOk cfg DataBits.UnknownDataBits).err =
        some PortError.UnsupportedPortOperationError) ∧
    ((setParity deviceOk cfg Parity.UnknownParity).ok = false ∧
      (setParity deviceOk cfg Parity.UnknownParity).err =
        some PortError.UnsupportedPortOperationError) ∧
    ((setStopBits deviceOk cfg StopBits.UnknownStopBits).ok = false ∧
      (setStopBits deviceOk cfg StopBits.UnknownStopBits).err =
        some PortError.UnsupportedPortOperationError) ∧
    ((setFlowControl deviceOk cfg FlowControl.UnknownFlowControl).ok = false ∧
      (setFlowControl deviceOk cfg FlowControl.UnknownFlowControl).err =
        some PortError.UnsupportedPortOperationError) := by
  refine ⟨?_, ?_, ⟨rfl, rfl⟩, ⟨rfl, rfl⟩, ⟨rfl, rfl⟩, ⟨rfl, rfl⟩⟩
  · intro rate dir hdir
    simp [setRate, hdir]
  · intro rate hrate
    simp [setRate, settingFromRate_eq_zero rate hrate]

/-- C6 witness: a direction-asymmetric request and the off-table rate 51,
both rejected. -/
theorem C6_invalid_rejected_witness :
    ((setRate true ⟨0, 0, 0, 0, 0⟩ 9600 Directions.InputDir).ok = false ∧
      (setRate true ⟨0, 0, 0, 0, 0⟩ 9600 Directions.InputDir).err =
        some PortError.UnsupportedPortOperationError) ∧
    ((setRate true ⟨0, 0, 0, 0, 0⟩ 51 Directions.AllDirections).ok = false ∧
      (setRate true ⟨0, 0, 0, 0, 0⟩ 51 Directions.AllDirections).err =
        some PortError.UnsupportedPortOperationError) :=
  ⟨(C6_invalid_rejected true ⟨0, 0, 0, 0, 0⟩).1 9600 Directions.InputDir (by decide),
   (C6_invalid_rejected true ⟨0, 0, 0, 0, 0⟩).2.1 51 (by decide)⟩

/-- C7: detection is total with Unknown fallbacks — a native data-bits,
parity or stop-bits code outside the known ones detects as the Unknown
tag of that field — and flow-control detection tests the software-flow
bit pair first, then the hardware-flow bit pair, then the fail-on-DSR
marker, and otherwise yields Unknown, in exactly that precedence
order. -/
theorem C7_detect_total (cfg : TCommConfigV01) :
    (cfg.iDataBits ≠ EData5 → cfg.iDataBits ≠ EData6 → cfg.iDataBits ≠ EData7 →
      cfg.iDataBits ≠ EData8 →
      (detectDefaultSettings cfg).dataBits = DataBits.UnknownDataBits) ∧
    (cfg.iParity ≠ EParityNone → cfg.iParity ≠ EParityEven → cfg.iParity ≠ EParityOdd →
      cfg.iParity ≠ EParityMark → cfg.iParity ≠ EParitySpace →
      (detectDefaultSettings cfg).parity = Parity.UnknownParity) ∧
    (cfg.iStopBits ≠ EStop1 → cfg.iStopBits ≠ EStop2 →
      (detectDefaultSettings cfg).stopBits = StopBits.UnknownStopBits) ∧
    (cfg.iHandshake &&& (KConfigObeyXoff ||| KConfigSendXoff) =
        KConfigObeyXoff ||| KConfigSendXoff →
      (detectDefaultSettings cfg).flow = FlowControl.SoftwareControl) ∧
    (cfg.iHandshake &&& (KConfigObeyXoff ||| KConfigSendXoff) ≠
        KConfigObeyXoff ||| KConfigSendXoff →
      cfg.iHandshake &&& (KConfigObeyCTS ||| KConfigFreeRTS) =
        KConfigObeyCTS ||| KConfigFreeRTS →
      (detectDefaultSettings cfg).flow = FlowControl.HardwareControl) ∧
    (cfg.iHandshake &&& (KConfigObeyXoff ||| KConfigSendXoff) ≠
        KConfigObeyXoff ||| KConfigSendXoff →
      cfg.iHandshake &&& (KConfigObeyCTS ||| KConfigFreeRTS) ≠
        KConfigObeyCTS ||| KConfigFreeRTS →
      cfg.iHandshake &&& KConfigFailDSR ≠ 0 →
      (detectDefaultSettings cfg).flow = FlowControl.NoFlowControl) ∧
    (cfg.iHandshake &&& (KConfigObeyXoff ||| KConfigSendXoff) ≠
        KConfigObeyXoff ||| KConfigSendXoff →
      cfg.iHandshake &&& (KConfigObeyCTS ||| KConfigFreeRTS) ≠
        KConfigObeyCTS ||| KConfigFreeRTS →
      cfg.iHandshake &&& KConfigFailDSR = 0 →
      (detectDefaultSettings cfg).flow = FlowControl.UnknownFlowControl) := by
  refine ⟨?_, ?_, ?_, ?_, ?_, ?_, ?_⟩ <;> intros <;>
    simp_all [detectDefaultSettings]

/-- C7 witness: the Unknown fallbacks at out-of-range codes, and each arm
of the flow-control precedence at concrete handshake masks — including a
mask combining all three categories, which detects as software flow. -/
theorem C7_detect_total_witness :
    (detectDefaultSettings ⟨0, 7, 9, 5, 0⟩).dataBits = DataBits.UnknownDataBits ∧
    (detectDefaultSettings ⟨0, 7, 9, 5, 0⟩).parity = Parity.UnknownParity ∧
    (detectDefaultSettings ⟨0, 7, 9, 5, 0⟩).stopBits = StopBits.UnknownStopBits ∧
    (detectDefaultSettings ⟨0, 7, 9, 5, 0⟩).flow = FlowControl.UnknownFlowControl ∧
    (detectDefaultSettings ⟨0, 0, 0, 0, 47⟩).flow = FlowControl.SoftwareControl ∧
    (detectDefaultSettings ⟨0, 0, 0, 0, 44⟩).flow = FlowControl.HardwareControl ∧
    (detectDefaultSettings ⟨0, 0, 0, 0, 32⟩).flow = FlowControl.NoFlowControl :=
  ⟨(C7_detect_total ⟨0, 7, 9, 5, 0⟩).1 (by decide) (by decide) (by decide) (by decide),
   (C7_detect_total ⟨0, 7, 9, 5, 0⟩).2.1 (by decide) (by decide) (by decide) (by decide)
     (by decide),
   (C7_detect_total ⟨0, 7, 9, 5, 0⟩).2.2.1 (by decide) (by decide),
   (C7_detect_total ⟨0, 7, 9, 5, 0⟩).2.2.2.2.2.2 (by decide) (by decide) (by decide),
   (C7_detect_total ⟨0, 0, 0, 0, 47⟩).2.2.2.1 (by decide),
   (C7_detect_total ⟨0, 0, 0, 0, 44⟩).2.2.2.2.1 (by decide) (by decide),
   (C7_detect_total ⟨0, 0, 0, 0, 32⟩).2.2.2.2.2.1 (by decide) (by decide) (by decide)⟩

/-- C10: for every configuration setter, a validation failure returns
`false` with the working native configuration completely unchanged and no
`SetConfig` push issued; and the push is issued only after the working
copy was validly updated (for `setRate`, only with both directions
requested and a table rate, the working copy then holding the looked-up
token; for the other setters, only for a non-Unknown input). -/
theorem C10_validation_failure_pure (deviceOk : Bool) (cfg : TCommConfigV01) :
    (∀ (rate : Int) (dir : Directions),
      dir ≠ Directions.AllDirections ∨ settingFromRate rate = 0 →
      setRate deviceOk cfg rate dir =
        { ok := false, cfg := cfg, pushed := false,
          err := some PortError.UnsupportedPortOperationError }) ∧
    (setDataBits deviceOk cfg DataBits.UnknownDataBits =
      { ok := false, cfg := cfg, pushed := false,
        err := some PortError.UnsupportedPortOperationError }) ∧
    (setParity deviceOk cfg Parity.UnknownParity =
      { ok := false, cfg := cfg, pushed := false,
        err := some PortError.UnsupportedPortOperationError }) ∧
    (setStopBits deviceOk cfg StopBits.UnknownStopBits =
      { ok := false, cfg := cfg, pushed := false,
        err := some PortError.UnsupportedPortOperationError }) ∧
    (setFlowControl deviceOk cfg FlowControl.UnknownFlowControl =
      { ok := false, cfg := cfg, pushed := false,
        err := some PortError.UnsupportedPortOperationError }) ∧
    (∀ (rate : Int) (dir : Directions), (setRate deviceOk cfg rate dir).pushed = true →
      dir = Directions.AllDirections ∧ settingFromRate rate ≠ 0 ∧
      (setRate deviceOk cfg rate dir).cfg = { cfg with iRate := settingFromRate rate }) ∧
    (∀ dataBits, (setDataBits deviceOk cfg dataBits).pushed = true →
      dataBits ≠ DataBits.UnknownDataBits) ∧
    (∀ parity, (setParity deviceOk cfg parity).pushed = true →
      parity ≠ Parity.UnknownParity) ∧
    (∀ stopBits, (setStopBits deviceOk cfg stopBits).pushed = true →
      stopBits ≠ StopBits.UnknownStopBits) ∧
    (∀ flow, (setFlowControl deviceOk cfg flow).pushed = true →
      flow ≠ FlowControl.UnknownFlowControl) := by
  refine ⟨?_, rfl, rfl, rfl, rfl, ?_, ?_, ?_, ?_, ?_⟩
  · intro rate dir hinv
    rcases hinv with hdir | hzero
    · simp [setRate, hdir]
    · rcases dir <;> simp [setRate, hzero, updateCommConfig]
  · intro rate dir hp
    rcases dir <;> by_cases hz : settingFromRate rate = 0 <;>
      rcases deviceOk <;> simp_all [setRate, updateCommConfig]
  · intro dataBits hp
    cases dataBits <;> simp_all [setDataBits]
  · intro parity hp
    cases parity <;> simp_all [setParity]
  · intro stopBits hp
    cases stopBits <;> simp_all [setStopBits]
  · intro flow hp
    cases flow <;> simp_all [setFlowControl]

/-- C10 witness: an invalid data-bits request leaves the working
configuration untouched with no push, as does a rate request for one
direction only. -/
theorem C10_validation_failure_pure_witness :
    (setDataBits true ⟨3, 3, 0, 0, 32⟩ DataBits.UnknownDataBits =
      { ok := false, cfg := ⟨3, 3, 0, 0, 32⟩, pushed := false,
        err := some PortError.UnsupportedPortOperationError }) ∧
    (setRate true ⟨3, 3, 0, 0, 32⟩ 110 Directions.OutputDir =
      { ok := false, cfg := ⟨3, 3, 0, 0, 32⟩, pushed := false,
        err := some PortError.UnsupportedPortOperationError }) :=
  ⟨(C10_validation_failure_pure true ⟨3, 3, 0, 0, 32⟩).2.1,
   (C10_validation_failure_pure true ⟨3, 3, 0, 0, 32⟩).1 110 Directions.OutputDir
     (Or.inl (by decide))⟩

end QtSerialPort
